import Mathlib

/-!
# LexCura dashboard — client-data resolution pipeline, shallow embedding

This file embeds the `DataConnectionManager` component of `src/app.py`
(methods `connect_to_google_sheets`, `load_client_data`,
`get_enterprise_demo_data`, `_format_client_data`) together with the
Streamlit caching layer (`@st.cache_data(ttl=300)` on the connection,
`@st.cache_data(ttl=60)` on the record, and the sidebar refresh action
`st.cache_data.clear()`), and proves properties of the resolution pipeline.

Modelling decisions:
* A Python dict with string keys is an insertion-ordered association list
  with unique keys; `Dict.set` mirrors `d[k] = v` (update in place or
  append), and building a dict from `dict(zip(headers, row))` folds `set`
  over the pairs, so a repeated header is last-value-wins, as in Python.
* `datetime.now()` is an abstract clock tick `Nat` supplied per call; the
  value `Value.dateTime t` stands for the datetime object at tick `t` and
  `Value.dateStr t` for its strftime "%Y-%m-%d" rendering.
* Python floats 99.7 / 0.8 are carried as the rationals 997/10 / 8/10.
* The external world (secrets store, Google API) is a `SheetsEnv`:
  whether credentials are present, which of the fallible API calls raises,
  and the header/data rows the worksheet yields.  Fallible sub-steps
  return `Except`; the `try/except` bodies catch into `Option`/fallback.
* The effects a call performs on the spreadsheet API are logged as a
  `List Action`, so "goes directly to fallback without attempting to open
  the workbook" and "re-executes the full fetch path" are statable.
-/

namespace LexCura

/-- A Python value occurring in the client record. -/
inductive Value where
  | str (s : String)
  | num (q : ℚ)
  | int (n : Int)
  | dateStr (t : Nat)
  | dateTime (t : Nat)
  deriving DecidableEq, Repr

/-- A Python dict with string keys: insertion-ordered association list. -/
abbrev Dict := List (String × Value)

/-- `d[key]` lookup (first matching key; keys built via `set` are unique). -/
def Dict.get? : Dict → String → Option Value
  | [], _ => none
  | (k, v) :: rest, key => if k = key then some v else Dict.get? rest key

/-- `d[key] = val`: update the existing entry in place, else append. -/
def Dict.set : Dict → String → Value → Dict
  | [], key, val => [(key, val)]
  | (k, v) :: rest, key, val =>
      if k = key then (k, val) :: rest else (k, v) :: Dict.set rest key val

/-- `dict(pairs)` / `dict(zip(headers, row))`: fold `set`, last value wins. -/
def dictOfPairs (ps : List (String × Value)) : Dict :=
  ps.foldl (fun d kv => Dict.set d kv.1 kv.2) []

/-- The `while len(row_data) < len(headers): row_data.append("")` loop:
pad the data row with empty strings up to the header count. -/
def padTo (row : List String) (n : Nat) : List String :=
  row ++ List.replicate (n - row.length) ""

/-- External state: the secrets store and the spreadsheet API's behaviour. -/
structure SheetsEnv where
  /-- `"gcp_service_account" in st.secrets` -/
  secretsHasCreds : Bool
  /-- parsing the credentials / `gspread.authorize` raises -/
  credsRaiseError : Bool
  /-- `gc.open_by_key(sheet_id)` raises (workbook missing / permission) -/
  openWorkbookFails : Bool
  /-- `spreadsheet.worksheet("MASTER SHEET")` raises (worksheet missing) -/
  worksheetFails : Bool
  /-- `sheet.row_values(...)` raises -/
  readRowsFails : Bool
  /-- row 1 of the worksheet -/
  headers : List String
  /-- row 2 of the worksheet -/
  rowData : List String
  deriving DecidableEq, Repr

/-- Effects performed against the spreadsheet API. -/
inductive Action where
  | openWorkbook
  | openWorksheet
  | readRow (n : Nat)
  deriving DecidableEq, Repr

/-- Body of the `try` in `connect_to_google_sheets`: if credentials are in
the secrets store, parse and authorize (either step may raise); otherwise
log a warning and return `None`. -/
def connectBody (env : SheetsEnv) : Except String (Option Unit) :=
  if env.secretsHasCreds then
    if env.credsRaiseError then .error "Google Sheets connection error"
    else .ok (some ())
  else .ok none

/-- `connect_to_google_sheets`: the `try/except` catches every exception
into `None`; the caller can never see an exception. -/
def connectToGoogleSheets (env : SheetsEnv) : Option Unit :=
  match connectBody env with
  | .ok r => r
  | .error _ => none

/-- `get_enterprise_demo_data` at clock tick `clock`: the hard-coded demo
record, with `DATE_SCRAPED` and `LAST_UPDATED` taken from the clock. -/
def getEnterpriseDemoData (clock : Nat) : Dict :=
  [ ("UNIQUE_CLIENT_ID", .str "11AA-EXEC"),
    ("CLIENT_NAME", .str "Fortune Global Pharmaceuticals Inc."),
    ("TIER", .str "Executive Premium Elite"),
    ("REGION", .str "Global Multi-Jurisdictional"),
    ("DELIVERY_FREQUENCY", .str "Real-time Intelligence & Predictive Analytics"),
    ("EMAIL_ADDRESS", .str "c-suite@fortuneglobalpharma.com"),
    ("MAIN_CONTENT", .str "Comprehensive executive-grade regulatory intelligence with AI-powered risk prediction, real-time compliance monitoring, strategic legal advisory services, and C-suite executive briefings. Advanced multi-jurisdictional compliance tracking with predictive analytics and strategic regulatory intelligence."),
    ("FINANCIAL_STATS", .str "£8.7M annual compliance optimization, £1.2M platform investment, 847% ROI"),
    ("HISTORICAL_IMPACTS", .str "ROI: 847% over 24 months, zero regulatory penalties, £12.3M in avoided violations"),
    ("EXECUTIVE_SUMMARY", .str "Exceptional executive performance across all regulatory domains. Advanced AI-powered risk prediction has eliminated critical violations while optimizing operational efficiency by 847%. Current performance exceeds all industry benchmarks with 99.7% overall compliance score, predictive risk mitigation, and strategic regulatory intelligence delivering unprecedented value to C-suite operations."),
    ("COMPLIANCE_ALERTS", .str "Zero critical violations (1,247 days violation-free), 5 proactive optimizations identified"),
    ("RISK_ANALYSIS", .str "Ultra-low risk profile (0.8/10) with predictive monitoring and strategic AI controls"),
    ("REGULATORY_UPDATES", .str "Global regulatory intelligence across 47 jurisdictions, AI-powered trend analysis, executive briefings, competitive intelligence"),
    ("ALERT_LEVEL", .str "OPTIMAL EXCELLENCE"),
    ("DATE_SCRAPED", .dateStr clock),
    ("STATUS", .str "Executive Premium Active - Elite Tier"),
    ("LAST_UPDATED", .dateTime clock),
    ("PERFORMANCE_SCORE", .num (997/10)),
    ("RISK_SCORE", .num (8/10)),
    ("VIOLATIONS_COUNT", .int 0),
    ("DAYS_VIOLATION_FREE", .int 1247),
    ("TEAM_CERTIFICATION", .num (994/10)),
    ("AI_INSIGHTS", .int 5),
    ("GLOBAL_COVERAGE", .int 47) ]

/-- `_format_client_data`: copy the raw mapping, then stamp
`LAST_UPDATED`, `PERFORMANCE_SCORE` and `RISK_SCORE`.  The `client_id`
parameter is accepted but — as in the source — never used. -/
def formatClientData (raw_data : Dict) (client_id : Option String) (clock : Nat) : Dict :=
  let formatted_data := raw_data
  let formatted_data := Dict.set formatted_data "LAST_UPDATED" (.dateTime clock)
  let formatted_data := Dict.set formatted_data "PERFORMANCE_SCORE" (.num (997/10))
  Dict.set formatted_data "RISK_SCORE" (.num (8/10))

/-- Body of the `try` in `load_client_data`, given the connection handle
`gc`: on no handle, return demo data at once (no spreadsheet action);
otherwise open workbook, worksheet, read rows 1 and 2 (each may raise),
pad the data row, zip with the headers and format. -/
def loadBodyWith (gc : Option Unit) (env : SheetsEnv) (clock : Nat)
    (client_id : Option String) : Except String Dict × List Action :=
  match gc with
  | none => (.ok (getEnterpriseDemoData clock), [])
  | some _ =>
    if env.openWorkbookFails then (.error "open_by_key", [.openWorkbook])
    else if env.worksheetFails then
      (.error "worksheet", [.openWorkbook, .openWorksheet])
    else if env.readRowsFails then
      (.error "row_values", [.openWorkbook, .openWorksheet, .readRow 1])
    else
      let headers := env.headers
      let row_data := padTo env.rowData headers.length
      let data := dictOfPairs (headers.zip (row_data.map Value.str))
      (.ok (formatClientData data client_id clock),
       [.openWorkbook, .openWorksheet, .readRow 1, .readRow 2])

/-- `load_client_data` (uncached): run the body with a fresh connection;
the `except` catches any error into the demo record. -/
def loadClientData (env : SheetsEnv) (clock : Nat) (client_id : Option String) :
    Dict × List Action :=
  let r := loadBodyWith (connectToGoogleSheets env) env clock client_id
  (match r.1 with
   | .ok d => d
   | .error _ => getEnterpriseDemoData clock,
   r.2)

/-! ## Caching layer (`@st.cache_data` decorators and the refresh action) -/

/-- `ttl=300` on `connect_to_google_sheets` (5 minutes). -/
def CONN_TTL : Nat := 300

/-- `ttl=60` on `load_client_data` (60 seconds). -/
def DATA_TTL : Nat := 60

/-- A cached entry stored at `storedAt` is served at `now` while younger
than `ttl`. -/
def cacheFresh (storedAt now ttl : Nat) : Bool :=
  storedAt ≤ now && now - storedAt < ttl

/-- The process-wide `st.cache_data` store: one slot for the connection
handle, one association list for the record keyed by the `client_id`
argument.  Each entry remembers when it was stored. -/
structure CacheState where
  connCache : Option (Nat × Option Unit)
  dataCache : List (Option String × Nat × Dict)
  deriving DecidableEq, Repr

/-- The empty cache (process start, or just after `st.cache_data.clear()`). -/
def emptyCache : CacheState := ⟨none, []⟩

/-- Look up the record cache by `client_id` key. -/
def lookupData : List (Option String × Nat × Dict) → Option String →
    Option (Nat × Dict)
  | [], _ => none
  | (k, t, d) :: rest, cid =>
      if k = cid then some (t, d) else lookupData rest cid

/-- `connect_to_google_sheets` through its `@st.cache_data(ttl=300)`
wrapper: serve a fresh cached handle, else connect and store. -/
def cachedConnect (env : SheetsEnv) (now : Nat) (st : CacheState) :
    Option Unit × CacheState :=
  match st.connCache with
  | some (t, v) =>
      if cacheFresh t now CONN_TTL then (v, st)
      else
        let v := connectToGoogleSheets env
        (v, { st with connCache := some (now, v) })
  | none =>
      let v := connectToGoogleSheets env
      (v, { st with connCache := some (now, v) })

/-- A cache miss of `load_client_data`: obtain the (cached) connection,
run the body, catch any error into the demo record, store the result
under the `client_id` key. -/
def cachedLoadMiss (env : SheetsEnv) (now : Nat) (client_id : Option String)
    (st : CacheState) : Dict × CacheState × List Action :=
  let gc := (cachedConnect env now st).1
  let st1 := (cachedConnect env now st).2
  let r := loadBodyWith gc env now client_id
  let res := match r.1 with
    | .ok d => d
    | .error _ => getEnterpriseDemoData now
  (res, { st1 with dataCache := (client_id, now, res) :: st1.dataCache }, r.2)

/-- `load_client_data` through its `@st.cache_data(ttl=60)` wrapper:
serve a fresh cached record (no spreadsheet action at all), else run the
full fetch path and store. -/
def cachedLoad (env : SheetsEnv) (now : Nat) (client_id : Option String)
    (st : CacheState) : Dict × CacheState × List Action :=
  match lookupData st.dataCache client_id with
  | some (t, d) =>
      if cacheFresh t now DATA_TTL then (d, st, [])
      else cachedLoadMiss env now client_id st
  | none => cachedLoadMiss env now client_id st

/-- The sidebar refresh action: `st.cache_data.clear()` drops every cached
entry of both decorated functions unconditionally. -/
def refreshClearCaches (_st : CacheState) : CacheState := emptyCache

/-! ## Helper lemmas on the dict operations -/

theorem Dict.get_set_self (d : Dict) (k : String) (v : Value) :
    (Dict.set d k v).get? k = some v := by
  induction d with
  | nil => simp [Dict.set, Dict.get?]
  | cons kv rest ih =>
      obtain ⟨k', v'⟩ := kv
      by_cases h : k' = k <;> simp [Dict.set, Dict.get?, h, ih]

theorem Dict.get_set_ne (d : Dict) (k k' : String) (v : Value) (h : k' ≠ k) :
    (Dict.set d k' v).get? k = d.get? k := by
  induction d with
  | nil => simp [Dict.set, Dict.get?, h]
  | cons kv rest ih =>
      obtain ⟨k'', v''⟩ := kv
      by_cases h2 : k'' = k' <;> by_cases h3 : k'' = k <;>
        simp_all [Dict.set, Dict.get?]

theorem foldl_set_get_of_not_mem (ps : List (String × Value)) (d : Dict)
    (k : String) (h : k ∉ ps.map Prod.fst) :
    (ps.foldl (fun d kv => Dict.set d kv.1 kv.2) d).get? k = d.get? k := by
  induction ps generalizing d with
  | nil => rfl
  | cons kv rest ih =>
      simp only [List.map_cons, List.mem_cons, not_or] at h
      simp only [List.foldl_cons]
      rw [ih (Dict.set d kv.1 kv.2) h.2, Dict.get_set_ne]
      exact fun hk => h.1 hk.symm

theorem foldl_set_get_of_mem_nodup (ps : List (String × Value)) (d : Dict)
    (k : String) (v : Value) (hnd : (ps.map Prod.fst).Nodup)
    (hmem : (k, v) ∈ ps) :
    (ps.foldl (fun d kv => Dict.set d kv.1 kv.2) d).get? k = some v := by
  induction ps generalizing d with
  | nil => cases hmem
  | cons kv rest ih =>
      simp only [List.map_cons, List.nodup_cons] at hnd
      rcases List.mem_cons.mp hmem with heq | hrest
      · subst heq
        simp only [List.foldl_cons]
        rw [foldl_set_get_of_not_mem rest _ k hnd.1, Dict.get_set_self]
      · exact ih (Dict.set d kv.1 kv.2) hnd.2 hrest

theorem foldl_set_get_isSome (ps : List (String × Value)) (d : Dict)
    (k : String) :
    ((ps.foldl (fun d kv => Dict.set d kv.1 kv.2) d).get? k).isSome = true ↔
      k ∈ ps.map Prod.fst ∨ (d.get? k).isSome = true := by
  induction ps generalizing d with
  | nil => simp
  | cons kv rest ih =>
      simp only [List.foldl_cons, List.map_cons, List.mem_cons]
      rw [ih]
      by_cases h : k = kv.1
      · subst h
        simp [Dict.get_set_self]
      · rw [Dict.get_set_ne _ _ _ _ (fun hk => h hk.symm)]
        constructor
        · tauto
        · rintro ((h1 | h2) | h3)
          · exact absurd h1 h
          · exact Or.inl h2
          · exact Or.inr h3

theorem dictOfPairs_get_isSome (ps : List (String × Value)) (k : String) :
    ((dictOfPairs ps).get? k).isSome = true ↔ k ∈ ps.map Prod.fst := by
  unfold dictOfPairs
  rw [foldl_set_get_isSome]
  simp [Dict.get?]

/-! ## Helper lemmas on the resolution pipeline -/

/-- The record the live path builds, as a term. -/
def liveRecord (env : SheetsEnv) (clock : Nat) (client_id : Option String) : Dict :=
  formatClientData
    (dictOfPairs (env.headers.zip ((padTo env.rowData env.headers.length).map Value.str)))
    client_id clock

/-- `load_client_data` yields either the demo record or the live record. -/
theorem load_result_cases (env : SheetsEnv) (clock : Nat) (cid : Option String) :
    (loadClientData env clock cid).1 = getEnterpriseDemoData clock ∨
    (loadClientData env clock cid).1 = liveRecord env clock cid := by
  obtain ⟨sc, ce, ow, ws, rr, hs, rd⟩ := env
  cases sc <;> cases ce <;> cases ow <;> cases ws <;> cases rr <;>
    first
      | exact Or.inl rfl
      | exact Or.inr rfl

/-- The `client_id` argument flows only into `_format_client_data`, which
ignores it: the result never depends on it. -/
theorem load_ignores_client_id (env : SheetsEnv) (clock : Nat)
    (cid cid' : Option String) :
    loadClientData env clock cid = loadClientData env clock cid' := by
  obtain ⟨sc, ce, ow, ws, rr, hs, rd⟩ := env
  cases sc <;> cases ce <;> cases ow <;> cases ws <;> cases rr <;> rfl

/-- On the live path (handle obtained, no API call raises),
`load_client_data` returns the formatted zipped record and performs the
full fetch sequence. -/
theorem load_live (env : SheetsEnv) (clock : Nat) (cid : Option String)
    (hc : connectToGoogleSheets env = some ())
    (h1 : env.openWorkbookFails = false) (h2 : env.worksheetFails = false)
    (h3 : env.readRowsFails = false) :
    loadClientData env clock cid =
      (liveRecord env clock cid,
       [.openWorkbook, .openWorksheet, .readRow 1, .readRow 2]) := by
  unfold loadClientData loadBodyWith liveRecord
  rw [hc, h1, h2, h3]
  rfl

/-- When no handle is obtained, `load_client_data` returns the demo record
and touches no spreadsheet API. -/
theorem load_no_handle (env : SheetsEnv) (clock : Nat) (cid : Option String)
    (hc : connectToGoogleSheets env = none) :
    loadClientData env clock cid = (getEnterpriseDemoData clock, []) := by
  unfold loadClientData loadBodyWith
  rw [hc]

/-- `_format_client_data` leaves every key other than the three stamped
ones untouched. -/
theorem formatClientData_get_other (d : Dict) (cid : Option String)
    (clock : Nat) (k : String) (h1 : k ≠ "LAST_UPDATED")
    (h2 : k ≠ "PERFORMANCE_SCORE") (h3 : k ≠ "RISK_SCORE") :
    (formatClientData d cid clock).get? k = d.get? k := by
  unfold formatClientData
  rw [Dict.get_set_ne _ _ _ _ (fun hk => h3 hk.symm),
      Dict.get_set_ne _ _ _ _ (fun hk => h2 hk.symm),
      Dict.get_set_ne _ _ _ _ (fun hk => h1 hk.symm)]

/-- Key presence in a `_format_client_data` result. -/
theorem formatClientData_get_isSome (d : Dict) (cid : Option String)
    (clock : Nat) (k : String) :
    ((formatClientData d cid clock).get? k).isSome = true ↔
      k = "LAST_UPDATED" ∨ k = "PERFORMANCE_SCORE" ∨ k = "RISK_SCORE" ∨
        (d.get? k).isSome = true := by
  by_cases h3 : k = "RISK_SCORE"
  · subst h3
    unfold formatClientData
    simp [Dict.get_set_self]
  by_cases h2 : k = "PERFORMANCE_SCORE"
  · subst h2
    unfold formatClientData
    rw [Dict.get_set_ne _ _ _ _ (by decide)]
    simp [Dict.get_set_self]
  by_cases h1 : k = "LAST_UPDATED"
  · subst h1
    unfold formatClientData
    rw [Dict.get_set_ne _ _ _ _ (by decide),
        Dict.get_set_ne _ _ _ _ (by decide)]
    simp [Dict.get_set_self]
  · rw [formatClientData_get_other d cid clock k h1 h2 h3]
    simp [h1, h2, h3]

/-- The keys of the zipped live mapping are exactly the header row. -/
theorem zip_keys (headers row : List String) :
    (headers.zip ((padTo row headers.length).map Value.str)).map Prod.fst
      = headers := by
  apply List.map_fst_zip
  simp only [List.length_map, padTo, List.length_append, List.length_replicate]
  omega

/-! ## Claim theorems -/

/-- Concrete environment: credentials absent from the secrets store. -/
def envNoCreds : SheetsEnv := ⟨false, false, false, false, false, [], []⟩

/-- C1: for every input `client_id` and every behaviour of the external
spreadsheet source (missing credentials, connection failure, missing
workbook or worksheet, failing row reads), `load_client_data` never raises
— it is a total function into records here, every fallible sub-step's
exception being caught — and always returns a record: either the live
record built from the sheet or the fixed demo record. -/
theorem C1_load_total (env : SheetsEnv) (clock : Nat) (cid : Option String) :
    (loadClientData env clock cid).1 = getEnterpriseDemoData clock ∨
    (loadClientData env clock cid).1 = liveRecord env clock cid :=
  load_result_cases env clock cid

/-- C2: when the spreadsheet client cannot authenticate (no handle),
`load_client_data` returns exactly the fixed demo record, whose
`DATE_SCRAPED` and `LAST_UPDATED` fields carry the clock at the moment of
the call and whose every other field is clock-independent (the hard-coded
demo literal). -/
theorem C2_fallback_determinism (env : SheetsEnv) (clock : Nat)
    (cid : Option String) (hc : connectToGoogleSheets env = none) :
    (loadClientData env clock cid).1 = getEnterpriseDemoData clock ∧
    (getEnterpriseDemoData clock).get? "DATE_SCRAPED"
      = some (.dateStr clock) ∧
    (getEnterpriseDemoData clock).get? "LAST_UPDATED"
      = some (.dateTime clock) ∧
    (∀ (k : String) (c c' : Nat), k ≠ "DATE_SCRAPED" → k ≠ "LAST_UPDATED" →
      (getEnterpriseDemoData c).get? k = (getEnterpriseDemoData c').get? k) := by
  have hdemo : ∀ c : Nat, getEnterpriseDemoData c =
      Dict.set (Dict.set (getEnterpriseDemoData 0) "DATE_SCRAPED" (.dateStr c))
        "LAST_UPDATED" (.dateTime c) := fun c => rfl
  refine ⟨?_, rfl, rfl, ?_⟩
  · rw [load_no_handle env clock cid hc]
  · intro k c c' hk1 hk2
    rw [hdemo c, hdemo c',
        Dict.get_set_ne _ _ _ _ (fun h => hk2 h.symm),
        Dict.get_set_ne _ _ _ _ (fun h => hk2 h.symm),
        Dict.get_set_ne _ _ _ _ (fun h => hk1 h.symm),
        Dict.get_set_ne _ _ _ _ (fun h => hk1 h.symm)]

/-- Witness for C2 at the concrete credential-less environment. -/
theorem C2_fallback_determinism_witness :
    connectToGoogleSheets envNoCreds = none ∧
    (loadClientData envNoCreds 5 none).1 = getEnterpriseDemoData 5 :=
  ⟨rfl, (C2_fallback_determinism envNoCreds 5 none rfl).1⟩

/-- C7: `connect_to_google_sheets` never raises to its caller — its catch
yields a total `Option`-valued function, `none` both when the secrets
store lacks credentials and when credential handling raises — and whenever
it yields no handle, `load_client_data` returns the demo fallback having
performed no spreadsheet action at all (no workbook open attempted). -/
theorem C7_connect_absorbs_errors (env : SheetsEnv) (clock : Nat)
    (cid : Option String) :
    (connectToGoogleSheets env = none ∨ connectToGoogleSheets env = some ()) ∧
    (env.secretsHasCreds = false → connectToGoogleSheets env = none) ∧
    (env.credsRaiseError = true → connectToGoogleSheets env = none) ∧
    (connectToGoogleSheets env = none →
      loadClientData env clock cid = (getEnterpriseDemoData clock, [])) := by
  refine ⟨?_, ?_, ?_, fun hc => load_no_handle env clock cid hc⟩
  · unfold connectToGoogleSheets connectBody
    cases hs : env.secretsHasCreds <;> cases hcred : env.credsRaiseError <;>
      simp
  · intro h
    unfold connectToGoogleSheets connectBody
    rw [h]
    rfl
  · intro h
    unfold connectToGoogleSheets connectBody
    rw [h]
    cases env.secretsHasCreds <;> rfl

/-- C9: on both the demo path and the live path — whatever the sheet row
contains — the returned record carries `PERFORMANCE_SCORE = 99.7` and
`RISK_SCORE = 0.8`; `_format_client_data` stamps these constants over any
value the sheet could supply, so they never reflect live data. -/
theorem C9_scores_hardcoded (env : SheetsEnv) (clock : Nat)
    (cid : Option String) (d : Dict) :
    (loadClientData env clock cid).1.get? "PERFORMANCE_SCORE"
      = some (.num (997/10)) ∧
    (loadClientData env clock cid).1.get? "RISK_SCORE"
      = some (.num (8/10)) ∧
    (formatClientData d cid clock).get? "PERFORMANCE_SCORE"
      = some (.num (997/10)) ∧
    (formatClientData d cid clock).get? "RISK_SCORE"
      = some (.num (8/10)) := by
  have hperf : ∀ d' : Dict, (formatClientData d' cid clock).get? "PERFORMANCE_SCORE"
      = some (.num (997/10)) := by
    intro d'
    unfold formatClientData
    rw [Dict.get_set_ne _ _ _ _ (by decide)]
    exact Dict.get_set_self _ _ _
  have hrisk : ∀ d' : Dict, (formatClientData d' cid clock).get? "RISK_SCORE"
      = some (.num (8/10)) := fun d' => Dict.get_set_self _ _ _
  refine ⟨?_, ?_, hperf d, hrisk d⟩ <;>
    rcases load_result_cases env clock cid with h | h <;> rw [h]
  · rfl
  · exact hperf _
  · rfl
  · exact hrisk _

/-- C10: the `client_id` argument has no influence on the result of
`load_client_data`: for the same external state and clock, any two
arguments give the same record (the live path hands `client_id` to
`_format_client_data`, which never uses it; the fallback record's
`UNIQUE_CLIENT_ID` is always the literal "11AA-EXEC"). -/
theorem C10_client_id_no_influence (env : SheetsEnv) (clock : Nat)
    (cid cid' : Option String) :
    loadClientData env clock cid = loadClientData env clock cid' ∧
    (getEnterpriseDemoData clock).get? "UNIQUE_CLIENT_ID"
      = some (.str "11AA-EXEC") :=
  ⟨load_ignores_client_id env clock cid cid', rfl⟩

/-- Concrete live environment whose sheet has only the two columns of
spec property P4: header row `["UNIQUE CLIENT ID","CLIENT NAME"]`, data
row `["Z9","Acme Corp"]`, nothing failing. -/
def envTwoCols : SheetsEnv :=
  ⟨true, false, false, false, false,
   ["UNIQUE CLIENT ID", "CLIENT NAME"], ["Z9", "Acme Corp"]⟩

/-- Concrete live environment whose sheet has a single column and no
`"UNIQUE CLIENT ID"` column. -/
def envOneCol : SheetsEnv :=
  ⟨true, false, false, false, false, ["CLIENT NAME"], ["Acme Corp"]⟩

/-- Key presence in a live-path result: exactly the header row plus the
three stamped fields. -/
theorem live_keys_iff (env : SheetsEnv) (clock : Nat) (cid : Option String)
    (k : String) (hc : connectToGoogleSheets env = some ())
    (h1 : env.openWorkbookFails = false) (h2 : env.worksheetFails = false)
    (h3 : env.readRowsFails = false) :
    ((loadClientData env clock cid).1.get? k).isSome = true ↔
      k ∈ env.headers ∨ k = "LAST_UPDATED" ∨ k = "PERFORMANCE_SCORE" ∨
        k = "RISK_SCORE" := by
  rw [load_live env clock cid hc h1 h2 h3]
  show ((liveRecord env clock cid).get? k).isSome = true ↔ _
  unfold liveRecord
  rw [formatClientData_get_isSome, dictOfPairs_get_isSome, zip_keys]
  tauto

/-- Counterexample to C3: on a live read whose sheet has only the
`"UNIQUE CLIENT ID"` column, the returned record has no client-name,
tier or region field under any spelling — missing columns are not
backfilled with defaults. -/
theorem C3_counterexample :
    ((loadClientData ⟨true, false, false, false, false,
        ["UNIQUE CLIENT ID"], ["Z9"]⟩ 2 none).1.get? "CLIENT NAME" = none) ∧
    ((loadClientData ⟨true, false, false, false, false,
        ["UNIQUE CLIENT ID"], ["Z9"]⟩ 2 none).1.get? "CLIENT_NAME" = none) ∧
    ((loadClientData ⟨true, false, false, false, false,
        ["UNIQUE CLIENT ID"], ["Z9"]⟩ 2 none).1.get? "TIER" = none) ∧
    ((loadClientData ⟨true, false, false, false, false,
        ["UNIQUE CLIENT ID"], ["Z9"]⟩ 2 none).1.get? "REGION" = none) :=
  ⟨rfl, rfl, rfl, rfl⟩

/-- C3 (amended): on the live path the returned record's keys are exactly
the sheet's header row plus the three stamped fields `LAST_UPDATED`,
`PERFORMANCE_SCORE`, `RISK_SCORE`; columns absent from the sheet are NOT
backfilled — the corresponding canonical fields are simply missing. -/
theorem C3_amended_live_keys (env : SheetsEnv) (clock : Nat)
    (cid : Option String) (k : String)
    (hc : connectToGoogleSheets env = some ())
    (h1 : env.openWorkbookFails = false) (h2 : env.worksheetFails = false)
    (h3 : env.readRowsFails = false) :
    ((loadClientData env clock cid).1.get? k).isSome = true ↔
      k ∈ env.headers ∨ k = "LAST_UPDATED" ∨ k = "PERFORMANCE_SCORE" ∨
        k = "RISK_SCORE" :=
  live_keys_iff env clock cid k hc h1 h2 h3

/-- Witness for C3 (amended): in `envOneCol` the canonical client-name
column is a key, while e.g. `TIER` is absent. -/
theorem C3_amended_live_keys_witness :
    connectToGoogleSheets envOneCol = some () ∧
    (((loadClientData envOneCol 2 none).1.get? "TIER").isSome = true ↔
      "TIER" ∈ envOneCol.headers ∨ "TIER" = "LAST_UPDATED" ∨
        "TIER" = "PERFORMANCE_SCORE" ∨ "TIER" = "RISK_SCORE") :=
  ⟨rfl, C3_amended_live_keys envOneCol 2 none "TIER" rfl rfl rfl rfl⟩

/-- Counterexample to C4: live read with header row `["CLIENT NAME"]`
(no `"UNIQUE CLIENT ID"` column) and `client_id = "Z9"` supplied: the
returned record has no client-id field at all — the supplied argument is
not substituted. -/
theorem C4_counterexample :
    ((loadClientData envOneCol 3 (some "Z9")).1.get? "UNIQUE CLIENT ID"
      = none) ∧
    ((loadClientData envOneCol 3 (some "Z9")).1.get? "UNIQUE_CLIENT_ID"
      = none) ∧
    ¬ ((loadClientData envOneCol 3 (some "Z9")).1.get? "UNIQUE CLIENT ID"
      = some (.str "Z9")) :=
  ⟨rfl, rfl, fun h => nomatch h⟩

/-- C4 (amended): the `client_id` argument is dead — `_format_client_data`
receives but never uses it, so the record is the same for any two
arguments; and when the sheet omits the `"UNIQUE CLIENT ID"` column on the
live path, the returned record simply has no such field (rather than
taking the supplied argument or the generic default). -/
theorem C4_amended_client_id_dead (env : SheetsEnv) (clock : Nat)
    (cid cid' : Option String)
    (hmem : "UNIQUE CLIENT ID" ∉ env.headers)
    (hc : connectToGoogleSheets env = some ())
    (h1 : env.openWorkbookFails = false) (h2 : env.worksheetFails = false)
    (h3 : env.readRowsFails = false) :
    loadClientData env clock cid = loadClientData env clock cid' ∧
    (loadClientData env clock cid).1.get? "UNIQUE CLIENT ID" = none := by
  refine ⟨load_ignores_client_id env clock cid cid', ?_⟩
  have hiff := live_keys_iff env clock cid "UNIQUE CLIENT ID" hc h1 h2 h3
  rcases hopt : (loadClientData env clock cid).1.get? "UNIQUE CLIENT ID" with
    _ | v
  · rfl
  · exfalso
    rcases hiff.mp (by rw [hopt]; rfl) with hmem' | h | h | h
    · exact hmem hmem'
    all_goals exact nomatch h

/-- Witness for C4 (amended) at `envOneCol` with `client_id = "Z9"`. -/
theorem C4_amended_client_id_dead_witness :
    ("UNIQUE CLIENT ID" ∉ envOneCol.headers) ∧
    connectToGoogleSheets envOneCol = some () ∧
    (loadClientData envOneCol 3 (some "Z9")).1.get? "UNIQUE CLIENT ID"
      = none :=
  ⟨by decide, rfl,
   (C4_amended_client_id_dead envOneCol 3 (some "Z9") none (by decide)
      rfl rfl rfl rfl).2⟩

/-- Counterexample to C5: with header row
`["UNIQUE CLIENT ID","CLIENT NAME"]` and data row `["Z9","Acme Corp"]`
the returned record does carry `"Z9"` and `"Acme Corp"`, but the other
canonical fields are not set to their documented defaults — `TIER`,
`REGION`, `STATUS` are plainly absent. -/
theorem C5_counterexample :
    ((loadClientData envTwoCols 7 none).1.get? "UNIQUE CLIENT ID"
      = some (.str "Z9")) ∧
    ((loadClientData envTwoCols 7 none).1.get? "CLIENT NAME"
      = some (.str "Acme Corp")) ∧
    ((loadClientData envTwoCols 7 none).1.get? "TIER" = none) ∧
    ((loadClientData envTwoCols 7 none).1.get? "REGION" = none) ∧
    ((loadClientData envTwoCols 7 none).1.get? "STATUS" = none) :=
  ⟨rfl, rfl, rfl, rfl, rfl⟩

/-- C5 (amended): with header row `["UNIQUE CLIENT ID","CLIENT NAME"]`
and data row `["Z9","Acme Corp"]`, the returned record is exactly the two
sheet cells plus the three stamped fields (`LAST_UPDATED` at the call's
clock, `PERFORMANCE_SCORE = 99.7`, `RISK_SCORE = 0.8`) — and nothing
else. -/
theorem C5_amended_row_fidelity (clock : Nat) (cid : Option String) :
    (loadClientData envTwoCols clock cid).1 =
      [("UNIQUE CLIENT ID", .str "Z9"), ("CLIENT NAME", .str "Acme Corp"),
       ("LAST_UPDATED", .dateTime clock), ("PERFORMANCE_SCORE", .num (997/10)),
       ("RISK_SCORE", .num (8/10))] := by
  cases cid <;> rfl

/-- Every defined cell of a replicate of empty strings is the empty
string. -/
theorem replicate_empty_get (m j : Nat) (hj : j < m) :
    (List.replicate m "").get? j = some "" := by
  induction m generalizing j with
  | zero => omega
  | succ m ih =>
      cases j with
      | zero => rfl
      | succ j => exact ih j (by omega)

/-- A padded cell beyond the original row is the empty string. -/
theorem padTo_get_of_ge (row : List String) (n i : Nat)
    (hrow : row.length ≤ i) (hi : i < n) :
    (padTo row n).get? i = some "" := by
  unfold padTo
  rw [List.get?_append_right hrow]
  exact replicate_empty_get _ _ (by omega)

/-- Padding restores alignment exactly when the data row is short. -/
theorem padTo_length_of_le (row : List String) (n : Nat)
    (h : row.length ≤ n) : (padTo row n).length = n := by
  simp [padTo]
  omega

/-- Under unique headers, every trailing header (one with no
corresponding data cell) is mapped to the empty string by the zipped
dict. -/
theorem trailing_header_empty (headers row : List String) (i : Nat)
    (hi : i < headers.length) (hrow : row.length ≤ i)
    (hnd : headers.Nodup) :
    (dictOfPairs (headers.zip
        ((padTo row headers.length).map Value.str))).get?
      (headers.get ⟨i, hi⟩) = some (.str "") := by
  have hplen : (padTo row headers.length).length = headers.length :=
    padTo_length_of_le row headers.length (le_trans hrow (le_of_lt hi))
  have hmem : (headers.get ⟨i, hi⟩, Value.str "") ∈
      headers.zip ((padTo row headers.length).map Value.str) := by
    apply List.get?_mem
    rw [List.get?_zip_eq_some]
    refine ⟨List.get?_eq_get hi, ?_⟩
    rw [List.get?_map, padTo_get_of_ge row headers.length i hrow hi]
    rfl
  apply foldl_set_get_of_mem_nodup _ _ _ _ _ hmem
  rw [zip_keys headers row]
  exact hnd

/-- Concrete live environment with two headers and a one-cell data row. -/
def envShortRow : SheetsEnv :=
  ⟨true, false, false, false, false,
   ["UNIQUE CLIENT ID", "CLIENT NAME"], ["Z9"]⟩

/-- C6: when the data row read on the live path is shorter than the
header row, resolution pads it with empty strings to the header length
before zipping (no index error is possible — every operation is total
here), and with unique headers every trailing header is assigned the
empty string in the resulting mapping. -/
theorem C6_short_row_padding (env : SheetsEnv) (clock : Nat)
    (cid : Option String)
    (hshort : env.rowData.length < env.headers.length)
    (hnd : env.headers.Nodup)
    (hc : connectToGoogleSheets env = some ())
    (h1 : env.openWorkbookFails = false) (h2 : env.worksheetFails = false)
    (h3 : env.readRowsFails = false) :
    (padTo env.rowData env.headers.length).length = env.headers.length ∧
    (loadClientData env clock cid).1 = liveRecord env clock cid ∧
    (∀ (i : Nat) (hi : i < env.headers.length), env.rowData.length ≤ i →
      (dictOfPairs (env.headers.zip
          ((padTo env.rowData env.headers.length).map Value.str))).get?
        (env.headers.get ⟨i, hi⟩) = some (.str "")) := by
  refine ⟨padTo_length_of_le _ _ (le_of_lt hshort), ?_, ?_⟩
  · rw [load_live env clock cid hc h1 h2 h3]
  · intro i hi hrow
    exact trailing_header_empty env.headers env.rowData i hi hrow hnd

/-- Witness for C6 at `envShortRow`: the trailing `"CLIENT NAME"` header
gets the empty string. -/
theorem C6_short_row_padding_witness :
    (envShortRow.rowData.length < envShortRow.headers.length) ∧
    envShortRow.headers.Nodup ∧
    (padTo envShortRow.rowData envShortRow.headers.length).length
      = envShortRow.headers.length :=
  ⟨by decide, by decide,
   (C6_short_row_padding envShortRow 1 none (by decide) (by decide)
      rfl rfl rfl rfl).1⟩

/-- C8: the handle cache has a 5-minute (300 s) TTL and the record cache
a 60-second TTL keyed by `client_id`; starting from a state with no entry
for `client_id`, a second call within 60 seconds of the first returns the
identical cached record — same `DATE_SCRAPED` included — performing no
spreadsheet action; the refresh action clears every cached entry
unconditionally, and a call on the cleared cache re-executes the full
fetch path of `load_client_data` (same record, same action trace). -/
theorem C8_cache_ttl (env : SheetsEnv) (cid : Option String)
    (st : CacheState) (t1 t2 : Nat)
    (hmiss : lookupData st.dataCache cid = none)
    (h12 : t1 ≤ t2) (hwin : t2 - t1 < 60) :
    CONN_TTL = 300 ∧ DATA_TTL = 60 ∧
    cachedLoad env t2 cid (cachedLoad env t1 cid st).2.1 =
      ((cachedLoad env t1 cid st).1, (cachedLoad env t1 cid st).2.1, []) ∧
    (cachedLoad env t2 cid (cachedLoad env t1 cid st).2.1).1.get?
        "DATE_SCRAPED"
      = (cachedLoad env t1 cid st).1.get? "DATE_SCRAPED" ∧
    refreshClearCaches (cachedLoad env t1 cid st).2.1 = emptyCache ∧
    (∀ (t3 : Nat) (cid3 : Option String),
      (cachedLoad env t3 cid3 emptyCache).1 = (loadClientData env t3 cid3).1 ∧
      (cachedLoad env t3 cid3 emptyCache).2.2
        = (loadClientData env t3 cid3).2) := by
  have h1 : cachedLoad env t1 cid st = cachedLoadMiss env t1 cid st := by
    unfold cachedLoad
    rw [hmiss]
  have h2 : (cachedLoadMiss env t1 cid st).2.1.dataCache =
      (cid, t1, (cachedLoadMiss env t1 cid st).1)
        :: (cachedConnect env t1 st).2.dataCache := rfl
  have hlook : lookupData (cachedLoadMiss env t1 cid st).2.1.dataCache cid
      = some (t1, (cachedLoadMiss env t1 cid st).1) := by
    rw [h2]
    simp [lookupData]
  have hfresh : cacheFresh t1 t2 DATA_TTL = true := by
    simp only [cacheFresh, DATA_TTL, Bool.and_eq_true, decide_eq_true_eq]
    omega
  have hhit : cachedLoad env t2 cid (cachedLoad env t1 cid st).2.1 =
      ((cachedLoad env t1 cid st).1, (cachedLoad env t1 cid st).2.1, []) := by
    rw [h1]
    unfold cachedLoad
    rw [hlook]
    simp [hfresh]
  exact ⟨rfl, rfl, hhit, by rw [hhit], rfl, fun t3 cid3 => ⟨rfl, rfl⟩⟩

/-- Witness for C8: two demo-path calls at 0 s and 30 s from the empty
cache give the identical record with no spreadsheet action. -/
theorem C8_cache_ttl_witness :
    lookupData emptyCache.dataCache none = none ∧
    cachedLoad envNoCreds 30 none (cachedLoad envNoCreds 0 none emptyCache).2.1
      = ((cachedLoad envNoCreds 0 none emptyCache).1,
         (cachedLoad envNoCreds 0 none emptyCache).2.1, []) :=
  ⟨rfl,
   (C8_cache_ttl envNoCreds none emptyCache 0 30 rfl (by omega)
      (by omega)).2.2.1⟩

end LexCura
